import Mathlib

/-!
Verification of the mm-algos rating / matchmaking simulation engine.

The repository synthesizes per-game player statistics, resolves game outcomes
per mode, and updates a custom "true rating" per player per mode.  The
definitions below are shallow embeddings of the arithmetic core:

* `learningRate`, `trueRatingAfterGame` — the decayed learning rate and the
  rating-update step of `calculate_ranking` (src/simulation/data_simulation.py,
  lines 304–320) and `calculate_game_player_rating`
  (src/simulation/data_simulation5.py, lines 362–376), over ℝ.
* `interpolate_stat` — the anchor interpolation of src/config.py (lines
  543–558, anchors 1000/1500/2000); `interpolate_stat6` — the variant of
  src/config6.py (lines 169–188, anchors 200/1300/3000), over ℚ.
* later sections: the Group-B delta computation, the accuracy split of
  `compute_basic_stats`, the battle-royale rescaling coefficients, the FFA and
  Search-and-Destroy outcome resolution, the aggregate-stats update.

Python floats are modelled as exact real/rational arithmetic; Python ints stay
integers embedded in ℚ where the code mixes them with floats; a Python
expression that would raise (division by zero, attribute never assigned) is
modelled with `Option`.
-/

namespace MMAlgos

/-! ### Rating update (data_simulation.py `calculate_ranking`, lines 304–320)

`base` is `game_type.base_k` (`base_performance` in data_simulation5.py),
`seconds` the seconds between the game and the player's `last_time_played`,
`games` the player's `total_games_played`, `preRating` the
`true_rating_before_game`. -/

/-- The decayed learning rate `kk` of `calculate_ranking`:
`base_k * max((1.5 - 2**(-uncertainty_duration/1209600))
             * ((exp(-0.0004*games) + exp(-0.00025*rating)) / 2), 0.3)`. -/
noncomputable def learningRate (base seconds games preRating : ℝ) : ℝ :=
  base * max ((1.5 - (2 : ℝ) ^ (-(seconds / 1209600)))
    * ((Real.exp (-0.0004 * games) + Real.exp (-0.00025 * preRating)) / 2)) 0.3

/-- The learning rate exactly as §4.5 Step 3 of the spec words it, through the
named factors `uncertainty_factor`, `experience_factor`, `rating_level_factor`. -/
noncomputable def specLearningRate (base seconds games preRating : ℝ) : ℝ :=
  let uncertainty_factor : ℝ := (2 : ℝ) ^ (-(seconds / 1209600))
  let experience_factor : ℝ := Real.exp (-0.0004 * games)
  let rating_level_factor : ℝ := Real.exp (-0.00025 * preRating)
  base * max ((1.5 - uncertainty_factor)
    * ((experience_factor + rating_level_factor) / 2)) 0.3

/-- The rating-update step (data_simulation.py line 318):
`max(true_rating_before_game + kk * ss, 0.0)`. -/
noncomputable def trueRatingAfterGame (preRating kk ss : ℝ) : ℝ :=
  max (preRating + kk * ss) 0

/-! ### Stat interpolation (src/config.py lines 543–558, anchors 1000/1500/2000;
src/config6.py lines 169–188, anchors 200/1300/3000) -/

/-- `interpolate_stat` of src/config.py: piecewise-linear interpolation with
anchors at ratings 1000, 1500, 2000 and slope divisor 500 (the anchor gap). -/
def interpolate_stat (low_val med_val high_val true_rating : ℚ) : ℚ :=
  if true_rating < 1000 then
    low_val - (1000 - true_rating) * ((med_val - low_val) / 500)
  else if true_rating < 1500 then
    low_val + ((true_rating - 1000) / 500) * (med_val - low_val)
  else if true_rating < 2000 then
    med_val + ((true_rating - 1500) / 500) * (high_val - med_val)
  else if true_rating = 2000 then high_val
  else high_val + (true_rating - 2000) * ((high_val - med_val) / 500)

/-- The below-1000 extrapolation branch of `interpolate_stat`, as a function. -/
def interpLowExtrap (low_val med_val true_rating : ℚ) : ℚ :=
  low_val - (1000 - true_rating) * ((med_val - low_val) / 500)

/-- The 1000→1500 interpolation branch of `interpolate_stat`. -/
def interpLowMid (low_val med_val true_rating : ℚ) : ℚ :=
  low_val + ((true_rating - 1000) / 500) * (med_val - low_val)

/-- The 1500→2000 interpolation branch of `interpolate_stat`. -/
def interpMidHigh (med_val high_val true_rating : ℚ) : ℚ :=
  med_val + ((true_rating - 1500) / 500) * (high_val - med_val)

/-- The above-2000 extrapolation branch of `interpolate_stat`. -/
def interpHighExtrap (med_val high_val true_rating : ℚ) : ℚ :=
  high_val + (true_rating - 2000) * ((high_val - med_val) / 500)

/-- `interpolate_stat` of src/config6.py: anchors at 200, 1300 and 3000, but
slope divisor 500 in every branch and absolute differences; result floored at
zero (`max(result, 0)`). -/
def interpolate_stat6 (low_val med_val high_val true_rating : ℚ) : ℚ :=
  let result :=
    if true_rating < 200 then
      low_val - (200 - true_rating) * (|med_val - low_val| / 500)
    else if true_rating = 200 then low_val
    else if true_rating < 1300 then
      low_val + ((true_rating - 200) / 500) * |med_val - low_val|
    else if true_rating = 1300 then med_val
    else if true_rating < 3000 then
      med_val + ((true_rating - 1300) / 500) * |high_val - med_val|
    else if true_rating = 3000 then high_val
    else high_val + (true_rating - 3000) * (|high_val - med_val| / 500)
  max result 0

/-- One key of the loop of `interpolate_stats` in src/config6.py (lines
190–212).  When the interpolated mean of games played is zero and the key is
count-like, the loop body stores 0 — but its next statement
`result[key] = interpolate_stat(...)` runs unconditionally and overwrites the
store, so the value the function returns is always the interpolated one. -/
def interpolate_stats6_field (mean_games : ℚ) (isCountLike : Bool)
    (low_val med_val high_val true_rating : ℚ) : ℚ :=
  let _dead_store : ℚ :=
    if mean_games = 0 ∧ isCountLike = true then 0
    else interpolate_stat6 low_val med_val high_val true_rating
  interpolate_stat6 low_val med_val high_val true_rating

/-- Modelled from the spec: the intended value of the same key — count-like
fields are forced to zero when the interpolated mean of games played is zero,
rather than interpolated. -/
def spec_interpolate_stats6_field (mean_games : ℚ) (isCountLike : Bool)
    (low_val med_val high_val true_rating : ℚ) : ℚ :=
  if mean_games = 0 ∧ isCountLike = true then 0
  else interpolate_stat6 low_val med_val high_val true_rating

/-! ### Group-B "rank-averages" deltas (data_simulation.py lines 254–278,
data_simulation5.py lines 276–298)

`ref_player_rating_coef` is hardcoded to 1 in the source (data_simulation.py
line 227), so `rating_coeficient` is 1 for every attribute and is folded into
the formulas below; data_simulation5.py has no such coefficient at all. -/

/-- The delta for one `(attr, koef)` pair of `RANK_AVERAGES` in the Group-B
loop: 0.0 for a player with no games played, otherwise the weighted relative
deviation of this game's value from the population mean, with a fixed bonus
when the mean is zero but the game value positive. -/
def rank_avg_delta (total_games_played : ℕ)
    (koef weight mean gameValue : ℚ) : ℚ :=
  if total_games_played = 0 then 0
  else if mean > 0 then koef * weight * (gameValue - mean) / mean
  else if gameValue > 0 then koef * weight * 1 else 0

/-- The Group-B killstreak delta (compares the game's killstreak against the
population's mean best killstreak). -/
def rank_avg_delta_killstreak (total_games_played : ℕ)
    (weight mean_best_killstreak killstreak : ℚ) : ℚ :=
  if total_games_played = 0 then 0
  else if mean_best_killstreak > 0 then
    weight * (killstreak - mean_best_killstreak) / mean_best_killstreak
  else if killstreak > 0 then weight * 1 else 0

/-- The Group-B win-streak delta (compares the player's current win streak
against the population's mean win streak). -/
def rank_avg_delta_win_streak (total_games_played : ℕ)
    (weight mean_win_streak win_streak : ℚ) : ℚ :=
  if total_games_played = 0 then 0
  else if mean_win_streak > 0 then
    weight * (win_streak - mean_win_streak) / mean_win_streak
  else if win_streak > 0 then weight * 1 else 0

/-! ### Accuracy split of `compute_basic_stats` (data_simulation.py lines
55–76).  `g0`, `g1`, `g2` are the raw Gaussian draws for total, headshot and
torso accuracy. -/

/-- `accuracy = max(random.gauss(...), 0.0)`. -/
def accuracy_draw (g0 : ℝ) : ℝ := max g0 0

/-- `headshot_accuracy = max(min(random.gauss(...), accuracy), 0.0)`. -/
def headshot_accuracy_draw (g1 a : ℝ) : ℝ := max (min g1 a) 0

/-- `torso_accuracy = max(min(gauss, accuracy - headshot_accuracy), 0.0)
if accuracy > 0.0 else 0.0`. -/
noncomputable def torso_accuracy_draw (g2 a hs : ℝ) : ℝ :=
  if a > 0 then max (min g2 (a - hs)) 0 else 0

/-- `leg_accuracy = accuracy - headshot_accuracy - torso_accuracy
if accuracy > 0.0 else 0.0`. -/
noncomputable def leg_accuracy_calc (a hs t : ℝ) : ℝ :=
  if a > 0 then a - hs - t else 0

/-! ### Ratio guards (data_simulation.py lines 84–91 guarded; lines 757–775 and
812–818 unguarded) -/

/-- Python division: raises `ZeroDivisionError` on a zero denominator, modelled
as `none`. -/
def pydiv (a b : ℚ) : Option ℚ := if b = 0 then none else some (a / b)

/-- `kill_death_ratio = kills / deaths if deaths > 0 else 0.0` — guarded. -/
def kill_death_ratio (kills deaths : ℚ) : ℚ :=
  if deaths > 0 then kills / deaths else 0

/-- `damage_dealt_and_taken_ratio = damage_dealt / damage_taken if
damage_taken > 0 else 0.0` — guarded. -/
def damage_dealt_and_taken_ratio (damage_dealt damage_taken : ℚ) : ℚ :=
  if damage_taken > 0 then damage_dealt / damage_taken else 0

/-- `kills_per_minute = kills / playtime * 60 if playtime > 0 else 0.0` —
guarded (likewise the other per-minute rates). -/
def kills_per_minute (kills playtime : ℚ) : ℚ :=
  if playtime > 0 then kills / playtime * 60 else 0

/-- The battle-royale rescaling coefficients of `simulate_game_mode_games`
(data_simulation.py lines 757–762):
`all_kill_koeficient = game_type.kill_cap / sum(kills)` and
`all_deaths_koeficient = game_type.kill_cap / sum(deaths)`, with no
zero-denominator guard. -/
def br_rescale_koeficients (kill_cap : ℚ) (kills deaths : List ℚ) :
    Option (ℚ × ℚ) := do
  let a ← pydiv kill_cap kills.sum
  let b ← pydiv kill_cap deaths.sum
  pure (a, b)

/-- The FFA kills rescaling coefficient (data_simulation.py line 818):
`kills_koeficient = game_kill_cap / most_kills_player.kills`, with no
zero-denominator guard. -/
def ffa_kills_koeficient (game_kill_cap maxKills : ℚ) : Option ℚ :=
  pydiv game_kill_cap maxKills

/-! ### Search-and-Destroy outcome resolution (data_simulation.py lines
1045–1073)

Only the fields the round/placement assignment reads and writes are embedded;
`longest_time_alive` is updated in the same loop from a fresh random draw and
is not part of this claim. -/

/-- The team label of a two-team game (`"Team_1"` / `"Team_2"` in the code). -/
inductive TeamLabel where
  | team1
  | team2
deriving DecidableEq, Repr

/-- The value of the code's `winning_team` variable: a team label or `"Tie"`. -/
inductive WinnerLabel where
  | team1
  | team2
  | tie
deriving DecidableEq, Repr

/-- The winner label naming a given team (`player.team == winning_team`). -/
def TeamLabel.winner : TeamLabel → WinnerLabel
  | .team1 => .team1
  | .team2 => .team2

/-- A participant as the SAD block sees one: `rounds_won`, `rounds_lost`,
`team_placement` and `is_tie` start out never assigned (`none`). -/
structure SadPlayer where
  team : TeamLabel
  deaths : ℚ
  rounds_won : Option ℚ := none
  rounds_lost : Option ℚ := none
  team_placement : Option ℚ := none
  is_tie : Option Bool := none
deriving DecidableEq, Repr

/-- Sum of `deaths` over the players of one team. -/
def teamDeaths (players : List SadPlayer) (t : TeamLabel) : ℚ :=
  ((players.filter fun p => p.team = t).map fun p => p.deaths).sum

/-- `int(team_deaths / all_player_deaths * 30)`: deaths are nonnegative, so
Python's truncation toward zero is the floor. -/
def sad_rounds_won (team_deaths all_deaths : ℚ) : ℚ :=
  (⌊team_deaths / all_deaths * 30⌋ : ℤ)

/-- `winning_team`: the team with more rounds won, else `"Tie"`. -/
def sad_winning_team (t1r t2r : ℚ) : WinnerLabel :=
  if t1r > t2r then .team1 else if t1r < t2r then .team2 else .tie

/-- The final SAD loop of data_simulation.py: it iterates
`for player in team2_players:`, so only Team_2 members are mutated — the
`if player.team == "Team_1"` test inside the body is dead.  (The same loop in
data_simulation5.py line 1264 iterates `game_players_to_insert`, i.e. every
participant.) -/
def sad_finalize (players : List SadPlayer) : List SadPlayer :=
  let t1 := teamDeaths players .team1
  let t2 := teamDeaths players .team2
  let all := t1 + t2
  let t1r := sad_rounds_won t1 all
  let t2r := sad_rounds_won t2 all
  let w := sad_winning_team t1r t2r
  players.map fun p =>
    if p.team = .team2 then
      let rw := if p.team = .team1 then t1r else t2r
      { p with
        rounds_won := some rw
        rounds_lost := some (30 - rw)
        team_placement :=
          some (if w = .tie then 1 else if p.team.winner = w then 1 else 2)
        is_tie := some (if w = .tie then true else if p.team.winner = w then
          false else false) }
    else p

/-! ### FFA outcome resolution (data_simulation5.py lines 1020–1066; the
shared cap-selection lines are identical in data_simulation.py lines 812–816)

Only the fields the FFA block reads and writes are embedded;
`longest_time_alive` is re-drawn from fresh randomness in the same loop and is
outside this claim. -/

/-- A participant as the FFA block sees one. -/
structure FfaPlayer where
  kills : ℚ
  deaths : ℚ
  assists : ℚ
  killstreak : ℚ
  damage_dealt : ℚ
  damage_taken : ℚ
  team_placement : Option ℚ := none
  is_tie : Option Bool := none
deriving DecidableEq, Repr

/-- Python's `round(x, 0)`: round half to even (banker's rounding). -/
def pythonRound (q : ℚ) : ℤ :=
  if q - ⌊q⌋ < 1 / 2 then ⌊q⌋
  else if q - ⌊q⌋ > 1 / 2 then ⌊q⌋ + 1
  else if ⌊q⌋ % 2 = 0 then ⌊q⌋ else ⌊q⌋ + 1

/-- `roundInt` of src/config6.py: `int(round(number, 0))`. -/
def roundInt (q : ℚ) : ℚ := (pythonRound q : ℤ)

/-- The applied FFA kill cap:
`most_kill_player_count = sum(1 for p in game_players_to_insert)` counts every
participant, so the cap is 80% of the mode cap whenever the game has more than
one participant. -/
def ffa_game_kill_cap (kill_cap : ℚ) (players : List FfaPlayer) : ℚ :=
  if 1 < players.length then kill_cap * 0.8 else kill_cap

/-- `max(game_players_to_insert, key=kills).kills`: the highest kill count
(kills are nonnegative, so folding `max` from 0 agrees with Python's `max`
over the nonempty list). -/
def ffa_max_kills (players : List FfaPlayer) : ℚ :=
  (players.map fun p => p.kills).foldr max 0

/-- Modelled from the spec: the kill cap the claim describes — 80% of the mode
cap exactly when more than one candidate for 1st place (a player holding the
highest kill count) exists. -/
def spec_ffa_game_kill_cap (kill_cap : ℚ) (players : List FfaPlayer) : ℚ :=
  if 1 < (players.countP fun p => p.kills == ffa_max_kills players) then
    kill_cap * 0.8
  else kill_cap

/-- The FFA kill-side rescale (data_simulation5.py lines 1028–1032): each of
kills / damage dealt / assists / killstreak is rounded after multiplying by
the coefficient, with a +0.5 bump for a zero raw value. -/
def ffa_rescale (c : ℚ) (players : List FfaPlayer) : List FfaPlayer :=
  players.map fun p =>
    { p with
      kills := if p.kills = 0 then roundInt ((p.kills + 0.5) * c)
        else roundInt (p.kills * c)
      damage_dealt := if p.damage_dealt = 0 then
          roundInt ((p.damage_dealt + 0.5) * c)
        else roundInt (p.damage_dealt * c)
      assists := if p.assists = 0 then roundInt ((p.assists + 0.5) * c)
        else roundInt (p.assists * c)
      killstreak := if p.killstreak = 0 then roundInt ((p.killstreak + 0.5) * c)
        else roundInt (p.killstreak * c) }

/-- The death weights `[(all_player_kills - player.kills + 1) for player in
random_sorted_players]`, computed over the randomly sampled order. -/
def ffa_death_weights (all_kills : ℚ) (randomOrder : List FfaPlayer) : List ℚ :=
  randomOrder.map fun p => all_kills - p.kills + 1

/-- The FFA death redistribution (data_simulation5.py lines 1040–1043):
`zip(game_players_to_insert, death_weights)` pairs the players in list order
with weights computed from the shuffled order; only deaths and damage taken
are rescaled (`longest_time_alive` is re-drawn from fresh randomness and is
outside this claim). -/
def ffa_redistribute (players randomOrder : List FfaPlayer) :
    List FfaPlayer :=
  let all_kills := (players.map fun p => p.kills).sum
  let weights := ffa_death_weights all_kills randomOrder
  let weight_sum := weights.sum
  (players.zip weights).map fun pw =>
    let p := pw.1
    let coef := if p.deaths = 0 then 1
      else all_kills * pw.2 / weight_sum / p.deaths
    { p with
      deaths := roundInt (p.deaths * coef)
      damage_taken := roundInt (p.damage_taken * coef) }

/-- Insert into a list sorted by strictly greater kills first (order among
equal kill counts does not matter for any property below). -/
def insertByKillsDesc (p : FfaPlayer) : List FfaPlayer → List FfaPlayer
  | [] => [p]
  | q :: rest =>
    if q.kills < p.kills then p :: q :: rest else q :: insertByKillsDesc p rest

/-- `sorted(game_players_to_insert, key=kills, reverse=True)`. -/
def sortByKillsDesc : List FfaPlayer → List FfaPlayer
  | [] => []
  | p :: rest => insertByKillsDesc p (sortByKillsDesc rest)

/-- The FFA placement loop (data_simulation5.py lines 1050–1060): every player
whose kills equal the applied cap gets placement 1 and bumps
`first_place_count`; every other player consumes the running placement
counter, which starts at 2.  Returns the updated players and the final
`first_place_count`. -/
def ffa_place (cap : ℚ) : List FfaPlayer → ℚ → ℕ → List FfaPlayer × ℕ
  | [], _, fc => ([], fc)
  | p :: rest, nextPlace, fc =>
    if p.kills = cap then
      let r := ffa_place cap rest nextPlace (fc + 1)
      ({ p with team_placement := some 1 } :: r.1, r.2)
    else
      let r := ffa_place cap rest (nextPlace + 1) fc
      ({ p with team_placement := some nextPlace } :: r.1, r.2)

/-- The FFA tie loop (data_simulation5.py lines 1062–1066): the tie flag is
true exactly for players at the cap when `first_place_count > 1`. -/
def ffa_assign_ties (cap : ℚ) (fc : ℕ) (players : List FfaPlayer) :
    List FfaPlayer :=
  players.map fun p =>
    { p with is_tie := some (if 1 < fc ∧ p.kills = cap then true else false) }

/-- The whole FFA resolution pipeline.  `shuffle` stands for `random.sample`
(a permutation of the rescaled players).  The kills coefficient divides by the
highest kill count with no zero guard in the source (see the battle-royale
division theorem); plain `ℚ` division is used here — the concrete inputs below
all have a positive maximum. -/
def ffa_resolve (kill_cap : ℚ) (shuffle : List FfaPlayer → List FfaPlayer)
    (players : List FfaPlayer) : List FfaPlayer × ℚ × ℕ :=
  let cap := ffa_game_kill_cap kill_cap players
  let c := cap / ffa_max_kills players
  let rescaled := ffa_rescale c players
  let redistributed := ffa_redistribute rescaled (shuffle rescaled)
  let sorted := sortByKillsDesc redistributed
  let placed := ffa_place cap sorted 2 0
  (ffa_assign_ties cap placed.2 placed.1, cap, placed.2)

/-- An FFA participant with the given raw kills, one death and no other raw
statistics. -/
def mkFfa (k : ℚ) : FfaPlayer :=
  { kills := k, deaths := 1, assists := 0, killstreak := 0, damage_dealt := 0,
    damage_taken := 0 }

/-- The spec's FFA scenario: one player at 60 raw kills among 12 participants. -/
def ffa_scenario_players : List FfaPlayer :=
  [mkFfa 60, mkFfa 1, mkFfa 1, mkFfa 1, mkFfa 1, mkFfa 1, mkFfa 1, mkFfa 1,
   mkFfa 1, mkFfa 1, mkFfa 1, mkFfa 1]

/-! ### Aggregate stats update (data_simulation.py `update_player_stats`,
lines 325–397)

Timestamps are modelled as seconds (ℚ); `ONE_WEEK`/`ONE_YEAR` are the config's
`timedelta(weeks=1)` / `timedelta(days=365)`.  Counts are kept in ℚ as Python
mixes them freely with floats in the same fields. -/

def ONE_WEEK : ℚ := 604800

def ONE_YEAR : ℚ := 31536000

/-- The per-player per-mode aggregate record, restricted to the fields
`update_player_stats` reads or writes. -/
structure PlayerGameTypeStats where
  total_kills : ℚ := 0
  total_deaths : ℚ := 0
  total_assists : ℚ := 0
  total_damage_missed : ℚ := 0
  total_damage_taken : ℚ := 0
  total_damage_dealt : ℚ := 0
  total_games_played : ℚ := 0
  total_wins : ℚ := 0
  total_loses : ℚ := 0
  total_ties : ℚ := 0
  win_streak : ℚ := 0
  last_time_played : Option ℚ := none
  true_rating : ℚ := 0
  total_headshot_damage_dealt : ℚ := 0
  total_torso_damage_dealt : ℚ := 0
  total_leg_damage_dealt : ℚ := 0
  total_contesting_kills : ℚ := 0
  total_objective_time : ℚ := 0
  total_longest_time_alive : ℚ := 0
  total_kills_per_minute : ℚ := 0
  total_deaths_per_minute : ℚ := 0
  total_assists_per_minute : ℚ := 0
  total_damage_dealt_per_minute : ℚ := 0
  total_damage_taken_per_minute : ℚ := 0
  total_accuracy : ℚ := 0
  total_headshot_accuracy : ℚ := 0
  total_torso_accuracy : ℚ := 0
  total_leg_accuracy : ℚ := 0
  total_kill_death_ratio : ℚ := 0
  total_damage_dealt_and_taken_ratio : ℚ := 0
  win_loss_ratio : ℚ := 0
  avg_kills : ℚ := 0
  avg_deaths : ℚ := 0
  avg_assists : ℚ := 0
  avg_damage_dealt : ℚ := 0
  avg_damage_taken : ℚ := 0
  avg_damage_missed : ℚ := 0
  avg_headshot_damage_dealt : ℚ := 0
  avg_torso_damage_dealt : ℚ := 0
  avg_leg_damage_dealt : ℚ := 0
  avg_accuracy : ℚ := 0
  avg_headshot_accuracy : ℚ := 0
  avg_torso_accuracy : ℚ := 0
  avg_leg_accuracy : ℚ := 0
  avg_contesting_kills : ℚ := 0
  avg_objective_time : ℚ := 0
  avg_longest_time_alive : ℚ := 0
  avg_kills_per_minute : ℚ := 0
  avg_deaths_per_minute : ℚ := 0
  avg_assists_per_minute : ℚ := 0
  avg_damage_dealt_per_minute : ℚ := 0
  avg_damage_taken_per_minute : ℚ := 0
  best_killstreak : ℚ := 0

/-- The portion of a game-participation record `update_player_stats` reads. -/
structure GamePlayerRecord where
  created_at : ℚ := 0
  kills : ℚ := 0
  deaths : ℚ := 0
  assists : ℚ := 0
  damage_missed : ℚ := 0
  damage_taken : ℚ := 0
  damage_dealt : ℚ := 0
  is_tie : Bool := false
  team_placement : ℚ := 0
  true_rating_after_game : ℚ := 0
  headshot_damage_dealt : ℚ := 0
  torso_damage_dealt : ℚ := 0
  leg_damage_dealt : ℚ := 0
  contesting_kills : ℚ := 0
  objective_time : ℚ := 0
  longest_time_alive : ℚ := 0
  kills_per_minute : ℚ := 0
  deaths_per_minute : ℚ := 0
  assists_per_minute : ℚ := 0
  damage_dealt_per_minute : ℚ := 0
  damage_taken_per_minute : ℚ := 0
  accuracy : ℚ := 0
  headshot_accuracy : ℚ := 0
  torso_accuracy : ℚ := 0
  leg_accuracy : ℚ := 0
  killstreak : ℚ := 0

/-- `update_player_stats` of data_simulation.py, statement by statement: add
this game's stats to every running total; bump the game counter; win/loss/tie
counters and win streak from placement (`if not is_tie: if placement == 1 ...`
rewritten with the tie case first); advance `last_time_played` by one week
clamped to `[created_at - ONE_YEAR, created_at]` (a missing value starts one
year back, plus the week); overwrite the rating; accuracy totals only
accumulate while total damage is positive; recompute the ratio fields from the
new totals with their zero-denominator fallbacks; recompute every average as
`total / total_games_played`; running max of the best killstreak. -/
def update_player_stats (ps : PlayerGameTypeStats) (gp : GamePlayerRecord) :
    PlayerGameTypeStats :=
  let total_kills := ps.total_kills + gp.kills
  let total_deaths := ps.total_deaths + gp.deaths
  let total_assists := ps.total_assists + gp.assists
  let total_damage_missed := ps.total_damage_missed + gp.damage_missed
  let total_damage_taken := ps.total_damage_taken + gp.damage_taken
  let total_damage_dealt := ps.total_damage_dealt + gp.damage_dealt
  let total_games_played := ps.total_games_played + 1
  let total_wins := if gp.is_tie then ps.total_wins
    else if gp.team_placement = 1 then ps.total_wins + 1 else ps.total_wins
  let total_loses := if gp.is_tie then ps.total_loses
    else if gp.team_placement = 1 then ps.total_loses else ps.total_loses + 1
  let total_ties := if gp.is_tie then ps.total_ties + 1 else ps.total_ties
  let win_streak := if gp.is_tie then ps.win_streak
    else if gp.team_placement = 1 then ps.win_streak + 1 else 0
  let starter_last_time_played := gp.created_at - ONE_YEAR
  let last_time_played := some (match ps.last_time_played with
    | some lt =>
        min gp.created_at (max starter_last_time_played (lt + ONE_WEEK))
    | none => starter_last_time_played + ONE_WEEK)
  let true_rating := gp.true_rating_after_game
  let total_headshot_damage_dealt :=
    ps.total_headshot_damage_dealt + gp.headshot_damage_dealt
  let total_torso_damage_dealt :=
    ps.total_torso_damage_dealt + gp.torso_damage_dealt
  let total_leg_damage_dealt := ps.total_leg_damage_dealt + gp.leg_damage_dealt
  let total_contesting_kills :=
    ps.total_contesting_kills + gp.contesting_kills
  let total_objective_time := ps.total_objective_time + gp.objective_time
  let total_longest_time_alive :=
    ps.total_longest_time_alive + gp.longest_time_alive
  let total_kills_per_minute :=
    ps.total_kills_per_minute + gp.kills_per_minute
  let total_deaths_per_minute :=
    ps.total_deaths_per_minute + gp.deaths_per_minute
  let total_assists_per_minute :=
    ps.total_assists_per_minute + gp.assists_per_minute
  let total_damage_dealt_per_minute :=
    ps.total_damage_dealt_per_minute + gp.damage_dealt_per_minute
  let total_damage_taken_per_minute :=
    ps.total_damage_taken_per_minute + gp.damage_taken_per_minute
  let total_damage := total_damage_dealt + total_damage_missed
  let total_accuracy := if total_damage > 0 then
      ps.total_accuracy + gp.accuracy
    else ps.total_accuracy
  let total_headshot_accuracy := if total_damage > 0 then
      ps.total_headshot_accuracy + gp.headshot_accuracy
    else ps.total_headshot_accuracy
  let total_torso_accuracy := if total_damage > 0 then
      ps.total_torso_accuracy + gp.torso_accuracy
    else ps.total_torso_accuracy
  let total_leg_accuracy := if total_damage > 0 then
      ps.total_leg_accuracy + gp.leg_accuracy
    else ps.total_leg_accuracy
  let total_kill_death_ratio := if total_deaths > 0 then
      total_kills / total_deaths
    else total_kills
  let total_damage_dealt_and_taken_ratio := if total_damage_taken > 0 then
      total_damage_dealt / total_damage_taken
    else total_damage_dealt
  let win_loss_ratio := if total_loses > 0 then total_wins / total_loses
    else total_wins
  let avg_kills := if total_games_played > 0 then
      total_kills / total_games_played else ps.avg_kills
  let avg_deaths := if total_games_played > 0 then
      total_deaths / total_games_played else ps.avg_deaths
  let avg_assists := if total_games_played > 0 then
      total_assists / total_games_played else ps.avg_assists
  let avg_damage_dealt := if total_games_played > 0 then
      total_damage_dealt / total_games_played else ps.avg_damage_dealt
  let avg_damage_taken := if total_games_played > 0 then
      total_damage_taken / total_games_played else ps.avg_damage_taken
  let avg_damage_missed := if total_games_played > 0 then
      total_damage_missed / total_games_played else ps.avg_damage_missed
  let avg_headshot_damage_dealt := if total_games_played > 0 then
      total_headshot_damage_dealt / total_games_played
    else ps.avg_headshot_damage_dealt
  let avg_torso_damage_dealt := if total_games_played > 0 then
      total_torso_damage_dealt / total_games_played
    else ps.avg_torso_damage_dealt
  let avg_leg_damage_dealt := if total_games_played > 0 then
      total_leg_damage_dealt / total_games_played else ps.avg_leg_damage_dealt
  let avg_accuracy := if total_games_played > 0 then
      total_accuracy / total_games_played else ps.avg_accuracy
  let avg_headshot_accuracy := if total_games_played > 0 then
      total_headshot_accuracy / total_games_played
    else ps.avg_headshot_accuracy
  let avg_torso_accuracy := if total_games_played > 0 then
      total_torso_accuracy / total_games_played else ps.avg_torso_accuracy
  let avg_leg_accuracy := if total_games_played > 0 then
      total_leg_accuracy / total_games_played else ps.avg_leg_accuracy
  let avg_contesting_kills := if total_games_played > 0 then
      total_contesting_kills / total_games_played else ps.avg_contesting_kills
  let avg_objective_time := if total_games_played > 0 then
      total_objective_time / total_games_played else ps.avg_objective_time
  let avg_longest_time_alive := if total_games_played > 0 then
      total_longest_time_alive / total_games_played
    else ps.avg_longest_time_alive
  let avg_kills_per_minute := if total_games_played > 0 then
      total_kills_per_minute / total_games_played
    else ps.avg_kills_per_minute
  let avg_deaths_per_minute := if total_games_played > 0 then
      total_deaths_per_minute / total_games_played
    else ps.avg_deaths_per_minute
  let avg_assists_per_minute := if total_games_played > 0 then
      total_assists_per_minute / total_games_played
    else ps.avg_assists_per_minute
  let avg_damage_dealt_per_minute := if total_games_played > 0 then
      total_damage_dealt_per_minute / total_games_played
    else ps.avg_damage_dealt_per_minute
  let avg_damage_taken_per_minute := if total_games_played > 0 then
      total_damage_taken_per_minute / total_games_played
    else ps.avg_damage_taken_per_minute
  let best_killstreak := max ps.best_killstreak gp.killstreak
  { total_kills, total_deaths, total_assists, total_damage_missed,
    total_damage_taken, total_damage_dealt, total_games_played, total_wins,
    total_loses, total_ties, win_streak, last_time_played, true_rating,
    total_headshot_damage_dealt, total_torso_damage_dealt,
    total_leg_damage_dealt, total_contesting_kills, total_objective_time,
    total_longest_time_alive, total_kills_per_minute, total_deaths_per_minute,
    total_assists_per_minute, total_damage_dealt_per_minute,
    total_damage_taken_per_minute, total_accuracy, total_headshot_accuracy,
    total_torso_accuracy, total_leg_accuracy, total_kill_death_ratio,
    total_damage_dealt_and_taken_ratio, win_loss_ratio, avg_kills, avg_deaths,
    avg_assists, avg_damage_dealt, avg_damage_taken, avg_damage_missed,
    avg_headshot_damage_dealt, avg_torso_damage_dealt, avg_leg_damage_dealt,
    avg_accuracy, avg_headshot_accuracy, avg_torso_accuracy, avg_leg_accuracy,
    avg_contesting_kills, avg_objective_time, avg_longest_time_alive,
    avg_kills_per_minute, avg_deaths_per_minute, avg_assists_per_minute,
    avg_damage_dealt_per_minute, avg_damage_taken_per_minute,
    best_killstreak }

/-- A game-participation record in which every statistic is zero. -/
def zeroGamePlayer (created_at : ℚ) : GamePlayerRecord :=
  { created_at := created_at }

/-- A concrete prior aggregate record: 2 games, 10 kills (so `avg_kills` = 5),
a 3-game win streak, no losses, rating 100, last played at time 0. -/
def c10_prior : PlayerGameTypeStats :=
  { total_kills := 10, total_games_played := 2, avg_kills := 5,
    win_streak := 3, true_rating := 100, last_time_played := some 0 }

/-! ### Theorems -/

/-- **C1.** For every participant and every combined performance signal `ss`,
the true rating computed by the rating-update step equals
`max(pre_game_rating + learning_rate * combined_signal, 0.0)`, hence is ≥ 0,
however negative the signal. -/
theorem rating_update_floor_at_zero (base seconds games preRating ss : ℝ) :
    trueRatingAfterGame preRating (learningRate base seconds games preRating) ss
      = max (preRating + learningRate base seconds games preRating * ss) 0
    ∧ 0 ≤ trueRatingAfterGame preRating
        (learningRate base seconds games preRating) ss := by
  exact ⟨rfl, le_max_right _ _⟩

/-- **C2.** The learning rate of `calculate_ranking` equals the spec's formula
`mode_base_rate * max((1.5 - 2^(-s/1209600)) * (exp(-0.0004*games)
+ exp(-0.00025*rating))/2, 0.3)`, and for a player idle exactly 14 days
(1209600 s), zero games played, rating 0 and base rate 20 it equals 20. -/
theorem learning_rate_formula_and_idle_14_days :
    (∀ base seconds games preRating : ℝ,
      learningRate base seconds games preRating
        = specLearningRate base seconds games preRating)
    ∧ learningRate 20 1209600 0 0 = 20 := by
  constructor
  · intro base seconds games preRating
    rfl
  · unfold learningRate
    have h1 : -((1209600 : ℝ) / 1209600) = -1 := by norm_num
    have h2 : (2 : ℝ) ^ (-1 : ℝ) = 1 / 2 := by
      rw [Real.rpow_neg (by norm_num), Real.rpow_one]
      norm_num
    rw [h1, h2]
    have h3 : (-0.0004 : ℝ) * 0 = 0 := by norm_num
    have h4 : (-0.00025 : ℝ) * 0 = 0 := by norm_num
    rw [h3, h4, Real.exp_zero]
    have h5 : ((1.5 : ℝ) - 1 / 2) * ((1 + 1) / 2) = 1 := by norm_num
    rw [h5]
    rw [max_eq_left (by norm_num : (0.3 : ℝ) ≤ 1)]
    norm_num

/-- Negating all three anchors negates `interpolate_stat`: each branch is
linear in the anchors while the branch tests depend only on the rating. -/
theorem interpolate_stat_neg (l m h r : ℚ) :
    interpolate_stat (-l) (-m) (-h) r = -interpolate_stat l m h r := by
  unfold interpolate_stat
  split_ifs <;> ring

/-- Between 1000 (inclusive) and 1500, `interpolate_stat` is its second branch. -/
theorem interpolate_stat_on_branch2 (l m h r : ℚ) (h1 : 1000 ≤ r)
    (h2 : r < 1500) : interpolate_stat l m h r = interpLowMid l m r := by
  unfold interpolate_stat interpLowMid
  rw [if_neg (by linarith), if_pos h2]

/-- Between 1500 (inclusive) and 2000, `interpolate_stat` is its third branch. -/
theorem interpolate_stat_on_branch3 (l m h r : ℚ) (h1 : 1500 ≤ r)
    (h2 : r < 2000) : interpolate_stat l m h r = interpMidHigh m h r := by
  unfold interpolate_stat interpMidHigh
  rw [if_neg (by linarith), if_neg (by linarith), if_pos h2]

/-- At rating exactly 2000 `interpolate_stat` takes the high anchor value. -/
theorem interpolate_stat_at_2000 (l m h : ℚ) :
    interpolate_stat l m h 2000 = h := by
  unfold interpolate_stat
  norm_num

/-- The low extrapolation branch at 1000 is the low anchor value. -/
theorem interpLowExtrap_at_1000 (l m : ℚ) : interpLowExtrap l m 1000 = l := by
  unfold interpLowExtrap
  ring

/-- The 1000→1500 branch at 1000 is the low anchor value. -/
theorem interpLowMid_at_1000 (l m : ℚ) : interpLowMid l m 1000 = l := by
  unfold interpLowMid
  ring

/-- The 1000→1500 branch at 1500 is the mid anchor value. -/
theorem interpLowMid_at_1500 (l m : ℚ) : interpLowMid l m 1500 = m := by
  unfold interpLowMid
  norm_num

/-- The 1500→2000 branch at 1500 is the mid anchor value. -/
theorem interpMidHigh_at_1500 (m h : ℚ) : interpMidHigh m h 1500 = m := by
  unfold interpMidHigh
  ring

/-- The 1500→2000 branch at 2000 is the high anchor value. -/
theorem interpMidHigh_at_2000 (m h : ℚ) : interpMidHigh m h 2000 = h := by
  unfold interpMidHigh
  norm_num

/-- The high extrapolation branch at 2000 is the high anchor value. -/
theorem interpHighExtrap_at_2000 (m h : ℚ) : interpHighExtrap m h 2000 = h := by
  unfold interpHighExtrap
  ring

/-- The 1000→1500 branch is monotone in the rating when the anchors ascend. -/
theorem interpLowMid_mono (l m r1 r2 : ℚ) (hlm : l ≤ m) (hr : r1 ≤ r2) :
    interpLowMid l m r1 ≤ interpLowMid l m r2 := by
  unfold interpLowMid
  rw [div_mul_eq_mul_div, div_mul_eq_mul_div]
  have key : (r1 - 1000) * (m - l) ≤ (r2 - 1000) * (m - l) :=
    mul_le_mul_of_nonneg_right (by linarith) (by linarith)
  have := (div_le_div_iff_of_pos_right (by norm_num : (0 : ℚ) < 500)).2 key
  linarith

/-- The 1500→2000 branch is monotone in the rating when the anchors ascend. -/
theorem interpMidHigh_mono (m h r1 r2 : ℚ) (hmh : m ≤ h) (hr : r1 ≤ r2) :
    interpMidHigh m h r1 ≤ interpMidHigh m h r2 := by
  unfold interpMidHigh
  rw [div_mul_eq_mul_div, div_mul_eq_mul_div]
  have key : (r1 - 1500) * (h - m) ≤ (r2 - 1500) * (h - m) :=
    mul_le_mul_of_nonneg_right (by linarith) (by linarith)
  have := (div_le_div_iff_of_pos_right (by norm_num : (0 : ℚ) < 500)).2 key
  linarith

/-- `interpolate_stat` is monotone in the rating between the anchors whenever
the anchor values ascend. -/
theorem interpolate_stat_mono (l m h r1 r2 : ℚ) (hlm : l ≤ m) (hmh : m ≤ h)
    (ha : 1000 ≤ r1) (hr : r1 ≤ r2) (hb : r2 ≤ 2000) :
    interpolate_stat l m h r1 ≤ interpolate_stat l m h r2 := by
  rcases lt_or_le r1 1500 with c1 | c1
  · rcases lt_or_le r2 1500 with c2 | c2
    · rw [interpolate_stat_on_branch2 l m h r1 ha c1,
        interpolate_stat_on_branch2 l m h r2 (by linarith) c2]
      exact interpLowMid_mono l m r1 r2 hlm hr
    · have step1 : interpolate_stat l m h r1 ≤ m := by
        rw [interpolate_stat_on_branch2 l m h r1 ha c1]
        calc interpLowMid l m r1 ≤ interpLowMid l m 1500 :=
              interpLowMid_mono l m r1 1500 hlm (by linarith)
          _ = m := interpLowMid_at_1500 l m
      rcases lt_or_le r2 2000 with c3 | c3
      · rw [interpolate_stat_on_branch3 l m h r2 c2 c3]
        calc interpolate_stat l m h r1 ≤ m := step1
          _ = interpMidHigh m h 1500 := (interpMidHigh_at_1500 m h).symm
          _ ≤ interpMidHigh m h r2 := interpMidHigh_mono m h 1500 r2 hmh c2
      · have : r2 = 2000 := le_antisymm hb c3
        rw [this, interpolate_stat_at_2000]
        linarith
  · rcases lt_or_le r1 2000 with c2 | c2
    · rcases lt_or_le r2 2000 with c3 | c3
      · rw [interpolate_stat_on_branch3 l m h r1 c1 c2,
          interpolate_stat_on_branch3 l m h r2 (by linarith) c3]
        exact interpMidHigh_mono m h r1 r2 hmh hr
      · have : r2 = 2000 := le_antisymm hb c3
        rw [this, interpolate_stat_at_2000,
          interpolate_stat_on_branch3 l m h r1 c1 c2]
        calc interpMidHigh m h r1 ≤ interpMidHigh m h 2000 :=
              interpMidHigh_mono m h r1 2000 hmh (by linarith)
          _ = h := interpMidHigh_at_2000 m h
    · have e1 : r1 = 2000 := le_antisymm (le_trans hr hb) c2
      have e2 : r2 = 2000 := le_antisymm hb (by linarith)
      rw [e1, e2]

/-- **C3 counterexample.** The claim fails on the code at concrete inputs:
config.py's `interpolate_stat` with anchors (0, 10, 20) at rating 0 returns
−20 < 0, so its result is not floored at zero; config6.py's `interpolate_stat`
with the same ascending anchors returns 21.99 at rating 1299.5 but 10 at the
mid anchor 1300, so its adjacent branches do not agree at the anchor and it is
not monotone between the anchors. -/
theorem interpolate_claim_counterexample :
    interpolate_stat 0 10 20 0 = -20
    ∧ interpolate_stat 0 10 20 0 < 0
    ∧ interpolate_stat6 0 10 20 (2599 / 2) = 2199 / 100
    ∧ interpolate_stat6 0 10 20 1300 = 10
    ∧ interpolate_stat6 0 10 20 1300 < interpolate_stat6 0 10 20 (2599 / 2) := by
  refine ⟨?_, ?_, ?_, ?_, ?_⟩ <;>
    norm_num [interpolate_stat, interpolate_stat6, abs_of_nonneg]

/-- **C3 (amended).** config.py's `interpolate_stat` (anchors 1000/1500/2000):
the adjacent piecewise branches agree at each anchor rating, and the function
is monotone in the rating between the anchors whenever low ≤ mid ≤ high and
antitone whenever low ≥ mid ≥ high; config6.py's `interpolate_stat` is the
variant whose result is floored at zero. -/
theorem interpolate_stat_continuous_monotone_and_floor :
    (∀ l m h : ℚ,
      interpLowExtrap l m 1000 = interpolate_stat l m h 1000
      ∧ interpLowMid l m 1000 = interpolate_stat l m h 1000
      ∧ interpLowMid l m 1500 = interpolate_stat l m h 1500
      ∧ interpMidHigh m h 1500 = interpolate_stat l m h 1500
      ∧ interpMidHigh m h 2000 = interpolate_stat l m h 2000
      ∧ interpHighExtrap m h 2000 = interpolate_stat l m h 2000)
    ∧ (∀ l m h r1 r2 : ℚ, l ≤ m → m ≤ h → 1000 ≤ r1 → r1 ≤ r2 → r2 ≤ 2000 →
        interpolate_stat l m h r1 ≤ interpolate_stat l m h r2)
    ∧ (∀ l m h r1 r2 : ℚ, m ≤ l → h ≤ m → 1000 ≤ r1 → r1 ≤ r2 → r2 ≤ 2000 →
        interpolate_stat l m h r2 ≤ interpolate_stat l m h r1)
    ∧ (∀ l m h r : ℚ, 0 ≤ interpolate_stat6 l m h r) := by
  refine ⟨?_, ?_, ?_, ?_⟩
  · intro l m h
    have e1000 : interpolate_stat l m h 1000 = l := by
      rw [interpolate_stat_on_branch2 l m h 1000 le_rfl (by norm_num),
        interpLowMid_at_1000]
    have e1500 : interpolate_stat l m h 1500 = m := by
      rw [interpolate_stat_on_branch3 l m h 1500 le_rfl (by norm_num),
        interpMidHigh_at_1500]
    refine ⟨?_, ?_, ?_, ?_, ?_, ?_⟩
    · rw [e1000, interpLowExtrap_at_1000]
    · rw [e1000, interpLowMid_at_1000]
    · rw [e1500, interpLowMid_at_1500]
    · rw [e1500, interpMidHigh_at_1500]
    · rw [interpolate_stat_at_2000, interpMidHigh_at_2000]
    · rw [interpolate_stat_at_2000, interpHighExtrap_at_2000]
  · intro l m h r1 r2 hlm hmh ha hr hb
    exact interpolate_stat_mono l m h r1 r2 hlm hmh ha hr hb
  · intro l m h r1 r2 hml hhm ha hr hb
    have hneg := interpolate_stat_mono (-l) (-m) (-h) r1 r2
      (neg_le_neg hml) (neg_le_neg hhm) ha hr hb
    rw [interpolate_stat_neg, interpolate_stat_neg] at hneg
    linarith
  · intro l m h r
    exact le_max_right _ _

/-- **C5.** Failing-input evaluation: with the interpolated mean of games
played equal to 0 and a count-like key whose anchors are (0, 10, 20) at rating
1300, `interpolate_stats` of src/config6.py returns the interpolated value 10,
while the spec requires the forced zero — the loop's `result[key] = 0` is dead,
immediately overwritten by the unconditional interpolation. -/
theorem interpolate_stats6_zeroing_is_dead :
    interpolate_stats6_field 0 true 0 10 20 1300 = 10
    ∧ spec_interpolate_stats6_field 0 true 0 10 20 1300 = 0
    ∧ interpolate_stats6_field 0 true 0 10 20 1300
        ≠ spec_interpolate_stats6_field 0 true 0 10 20 1300 := by
  refine ⟨?_, ?_, ?_⟩ <;>
    norm_num [interpolate_stats6_field, spec_interpolate_stats6_field,
      interpolate_stat6]

/-- **C4.** For a player whose aggregate record has `total_games_played = 0`,
every Group-B rank-average delta — the per-attribute loop, the killstreak delta
and the win-streak delta — is 0.0, whatever the game's statistics. -/
theorem rank_avg_deltas_zero_games (koef weight mean gameValue : ℚ) :
    rank_avg_delta 0 koef weight mean gameValue = 0
    ∧ rank_avg_delta_killstreak 0 weight mean gameValue = 0
    ∧ rank_avg_delta_win_streak 0 weight mean gameValue = 0 := by
  refine ⟨?_, ?_, ?_⟩ <;> rfl

/-- **C9.** For every combination of Gaussian draws, the synthesized headshot,
torso and leg accuracies are all ≥ 0 and sum exactly to the total accuracy,
including when accuracy is 0. -/
theorem accuracy_split_invariant (g0 g1 g2 : ℝ) :
    headshot_accuracy_draw g1 (accuracy_draw g0)
        + torso_accuracy_draw g2 (accuracy_draw g0)
            (headshot_accuracy_draw g1 (accuracy_draw g0))
        + leg_accuracy_calc (accuracy_draw g0)
            (headshot_accuracy_draw g1 (accuracy_draw g0))
            (torso_accuracy_draw g2 (accuracy_draw g0)
              (headshot_accuracy_draw g1 (accuracy_draw g0)))
      = accuracy_draw g0
    ∧ 0 ≤ headshot_accuracy_draw g1 (accuracy_draw g0)
    ∧ 0 ≤ torso_accuracy_draw g2 (accuracy_draw g0)
        (headshot_accuracy_draw g1 (accuracy_draw g0))
    ∧ 0 ≤ leg_accuracy_calc (accuracy_draw g0)
        (headshot_accuracy_draw g1 (accuracy_draw g0))
        (torso_accuracy_draw g2 (accuracy_draw g0)
          (headshot_accuracy_draw g1 (accuracy_draw g0))) := by
  set a := accuracy_draw g0 with ha_def
  have ha0 : 0 ≤ a := le_max_right _ _
  set hs := headshot_accuracy_draw g1 a with hhs_def
  have hhs0 : 0 ≤ hs := le_max_right _ _
  have hhs_le : hs ≤ a := max_le (min_le_right _ _) ha0
  by_cases hpos : a > 0
  · set t := torso_accuracy_draw g2 a hs with ht_def
    have ht_eq : t = max (min g2 (a - hs)) 0 := by
      rw [ht_def, torso_accuracy_draw, if_pos hpos]
    have ht0 : 0 ≤ t := by rw [ht_eq]; exact le_max_right _ _
    have ht_le : t ≤ a - hs := by
      rw [ht_eq]
      exact max_le (min_le_right _ _) (by linarith)
    have hleg : leg_accuracy_calc a hs t = a - hs - t := by
      rw [leg_accuracy_calc, if_pos hpos]
    exact ⟨by rw [hleg]; ring, hhs0, ht0, by rw [hleg]; linarith⟩
  · have ha_eq : a = 0 := le_antisymm (not_lt.1 hpos) ha0
    have hhs_eq : hs = 0 := by
      rw [hhs_def, headshot_accuracy_draw, ha_eq]
      exact max_eq_right (min_le_right _ _)
    have ht_eq : torso_accuracy_draw g2 a hs = 0 := by
      rw [torso_accuracy_draw, if_neg hpos]
    have hleg : leg_accuracy_calc a hs (torso_accuracy_draw g2 a hs) = 0 := by
      rw [leg_accuracy_calc, if_neg hpos]
    refine ⟨?_, hhs0, ?_, ?_⟩
    · rw [hleg, ht_eq, hhs_eq, ha_eq]
      norm_num
    · rw [ht_eq]
    · rw [hleg]

/-- **C6.** Failing-input evaluation: the guarded ratios of
`compute_basic_stats` return 0 on a zero denominator, but the battle-royale
rescaling coefficients (and the FFA kills coefficient) divide by the
participants' total kills/deaths with no guard — a BR game whose 100
participants all have zero kills and zero deaths raises `ZeroDivisionError`
(`none` here), contradicting the claim that no ratio computation ever
raises. -/
theorem division_guard_violated_in_br :
    (∀ k : ℚ, kill_death_ratio k 0 = 0)
    ∧ (∀ d : ℚ, damage_dealt_and_taken_ratio d 0 = 0)
    ∧ (∀ k : ℚ, kills_per_minute k 0 = 0)
    ∧ br_rescale_koeficients 99 (List.replicate 100 0)
        (List.replicate 100 0) = none
    ∧ ffa_kills_koeficient 40 0 = none := by
  refine ⟨fun k => rfl, fun d => rfl, fun k => rfl, ?_, rfl⟩
  simp [br_rescale_koeficients, pydiv, List.sum_replicate]

/-- **C7.** Failing-input evaluation: in a SAD game with one Team_1 player
(10 deaths) and one Team_2 player (20 deaths), outcome resolution leaves the
Team_1 player with no team placement and no round counts at all (`none`),
while the Team_2 player — the team with more deaths, hence more rounds won —
gets placement 1 with 20 of 30 rounds; the claim says every participant is
assigned a placement and round counts. -/
theorem sad_team1_players_never_assigned :
    sad_finalize
        [{ team := .team1, deaths := 10 }, { team := .team2, deaths := 20 }]
      = [{ team := .team1, deaths := 10 },
         { team := .team2, deaths := 20, rounds_won := some 20,
           rounds_lost := some 10, team_placement := some 1,
           is_tie := some false }] := by
  simp [sad_finalize, teamDeaths, sad_rounds_won, sad_winning_team,
    TeamLabel.winner]
  norm_num
  simp

/-- In the output of the FFA placement loop (started at placement counter ≥ 2),
a player holds placement 1 exactly when their kills equal the applied cap. -/
theorem ffa_place_mem (cap : ℚ) (l : List FfaPlayer) :
    ∀ (np : ℚ) (fc : ℕ), 2 ≤ np →
      ∀ p ∈ (ffa_place cap l np fc).1,
        (p.team_placement = some 1 ↔ p.kills = cap) := by
  induction l with
  | nil =>
    intro np fc _ p hp
    simp [ffa_place] at hp
  | cons q rest ih =>
    intro np fc h2 p hp
    by_cases hq : q.kills = cap
    · simp only [ffa_place] at hp
      rw [if_pos hq] at hp
      rcases List.mem_cons.1 hp with rfl | htail
      · simp [hq]
      · exact ih np (fc + 1) h2 p htail
    · simp only [ffa_place] at hp
      rw [if_neg hq] at hp
      rcases List.mem_cons.1 hp with rfl | htail
      · have hnp : np ≠ 1 := by
          intro h
          rw [h] at h2
          norm_num at h2
        simp [hq, hnp]
      · exact ih (np + 1) fc (by linarith) p htail

/-- The `first_place_count` the FFA placement loop returns counts exactly the
players it assigned placement 1. -/
theorem ffa_place_count (cap : ℚ) (l : List FfaPlayer) :
    ∀ (np : ℚ) (fc : ℕ), 2 ≤ np →
      ((ffa_place cap l np fc).1.countP fun p => p.team_placement == some 1)
          + fc = (ffa_place cap l np fc).2 := by
  induction l with
  | nil => intro np fc _; simp [ffa_place]
  | cons q rest ih =>
    intro np fc h2
    by_cases hq : q.kills = cap
    · have h := ih np (fc + 1) h2
      simp [ffa_place, hq, List.countP_cons]
      omega
    · have h := ih (np + 1) fc (by linarith)
      have hnp : np ≠ 1 := by
        intro h'
        rw [h'] at h2
        norm_num at h2
      simp [ffa_place, hq, hnp, List.countP_cons]
      omega

/-- `some (ite c true false) = some true` holds exactly when `c` does. -/
theorem option_ite_true_iff (c : Prop) [Decidable c] :
    (some (if c then true else false) = some true) ↔ c := by
  by_cases hc : c <;> simp [hc]

/-- Membership in `insertByKillsDesc`. -/
theorem mem_insertByKillsDesc (x p : FfaPlayer) (l : List FfaPlayer) :
    x ∈ insertByKillsDesc p l ↔ x = p ∨ x ∈ l := by
  induction l with
  | nil => simp [insertByKillsDesc]
  | cons q rest ih =>
    by_cases h : q.kills < p.kills
    · simp [insertByKillsDesc, h]
    · simp [insertByKillsDesc, h, ih]
      tauto

/-- Inserting into a kills-descending list keeps it kills-descending. -/
theorem insertByKillsDesc_pairwise (p : FfaPlayer) (l : List FfaPlayer)
    (h : l.Pairwise fun a b => b.kills ≤ a.kills) :
    (insertByKillsDesc p l).Pairwise fun a b => b.kills ≤ a.kills := by
  induction l with
  | nil => simp [insertByKillsDesc]
  | cons q rest ih =>
    rw [List.pairwise_cons] at h
    obtain ⟨h1, h2⟩ := h
    by_cases hlt : q.kills < p.kills
    · rw [insertByKillsDesc, if_pos hlt, List.pairwise_cons]
      constructor
      · intro x hx
        rcases List.mem_cons.1 hx with rfl | hx'
        · linarith
        · linarith [h1 x hx']
      · rw [List.pairwise_cons]
        exact ⟨h1, h2⟩
    · rw [insertByKillsDesc, if_neg hlt, List.pairwise_cons]
      constructor
      · intro x hx
        rcases (mem_insertByKillsDesc x p rest).1 hx with rfl | hx'
        · linarith [not_lt.1 hlt]
        · exact h1 x hx'
      · exact ih h2

/-- `sortByKillsDesc` sorts by kills in non-increasing order. -/
theorem sortByKillsDesc_pairwise (l : List FfaPlayer) :
    (sortByKillsDesc l).Pairwise fun a b => b.kills ≤ a.kills := by
  induction l with
  | nil => simp [sortByKillsDesc]
  | cons p rest ih => exact insertByKillsDesc_pairwise p _ ih

/-- The FFA placement loop does not change anyone's kills and keeps the list
order. -/
theorem ffa_place_kills_map (cap : ℚ) (l : List FfaPlayer) :
    ∀ (np : ℚ) (fc : ℕ),
      ((ffa_place cap l np fc).1.map fun p => p.kills)
        = l.map fun p => p.kills := by
  induction l with
  | nil => intro np fc; simp [ffa_place]
  | cons q rest ih =>
    intro np fc
    by_cases hq : q.kills = cap
    · simp [ffa_place, hq, ih]
    · simp [ffa_place, hq, ih]

/-- Every non-cap player the placement loop emits carries a placement at least
the starting counter value. -/
theorem ffa_place_placement_ge (cap : ℚ) (l : List FfaPlayer) :
    ∀ (np : ℚ) (fc : ℕ), ∀ q ∈ (ffa_place cap l np fc).1, q.kills ≠ cap →
      ∃ b : ℚ, q.team_placement = some b ∧ np ≤ b := by
  induction l with
  | nil => intro np fc q hq; simp [ffa_place] at hq
  | cons x rest ih =>
    intro np fc q hq hne
    by_cases hx : x.kills = cap
    · simp only [ffa_place] at hq
      rw [if_pos hx] at hq
      rcases List.mem_cons.1 hq with rfl | htail
      · exact absurd hx hne
      · exact ih np (fc + 1) q htail hne
    · simp only [ffa_place] at hq
      rw [if_neg hx] at hq
      rcases List.mem_cons.1 hq with rfl | htail
      · exact ⟨np, rfl, le_refl np⟩
      · obtain ⟨b, hb, hnb⟩ := ih (np + 1) fc q htail hne
        exact ⟨b, hb, by linarith⟩

/-- Along the placement loop's output, the placements of the players not at
the cap are strictly increasing: the running counter is consumed in list
order. -/
theorem ffa_place_pairwise_placements (cap : ℚ) (l : List FfaPlayer) :
    ∀ (np : ℚ) (fc : ℕ),
      (ffa_place cap l np fc).1.Pairwise fun p q =>
        p.kills ≠ cap → q.kills ≠ cap →
          ∃ a b : ℚ, p.team_placement = some a ∧ q.team_placement = some b
            ∧ a < b := by
  induction l with
  | nil => intro np fc; simp [ffa_place]
  | cons x rest ih =>
    intro np fc
    by_cases hx : x.kills = cap
    · simp only [ffa_place]
      rw [if_pos hx, List.pairwise_cons]
      refine ⟨?_, ih np (fc + 1)⟩
      intro q _ hp _
      exact absurd hx hp
    · simp only [ffa_place]
      rw [if_neg hx, List.pairwise_cons]
      refine ⟨?_, ih (np + 1) fc⟩
      intro q hq _ hqne
      obtain ⟨b, hb, hnb⟩ := ffa_place_placement_ge cap rest (np + 1) fc q hq
        hqne
      exact ⟨np, b, rfl, hb, by linarith⟩

/-- **C8 counterexample.** With two participants at 10 and 5 raw kills there is
a single candidate for 1st place, yet the code applies 80% of the kill cap
(`ffa_game_kill_cap` = 40, not the claimed `spec_ffa_game_kill_cap` = 50),
because `most_kill_player_count` counts every participant. -/
theorem ffa_cap_counterexample :
    ffa_game_kill_cap 50 [mkFfa 10, mkFfa 5] = 40
    ∧ spec_ffa_game_kill_cap 50 [mkFfa 10, mkFfa 5] = 50
    ∧ ffa_game_kill_cap 50 [mkFfa 10, mkFfa 5]
        ≠ spec_ffa_game_kill_cap 50 [mkFfa 10, mkFfa 5] := by
  refine ⟨?_, ?_, ?_⟩ <;>
    norm_num [ffa_game_kill_cap, spec_ffa_game_kill_cap, ffa_max_kills, mkFfa,
      List.countP_cons, max_def]

/-- **C8 (amended).** The FFA resolution rescales the highest-kill player to
the mode's kill cap, or to 80% of the cap exactly when the game has more than
one participant (not "more than one candidate for 1st place").  Placement is
ranked by kills descending: the resolved list is sorted by kills in
non-increasing order; placement 1 is held exactly by the players whose
rescaled kills equal the applied cap, and along that order the remaining
players receive strictly increasing placements (2, 3, …); the returned
first-place count counts exactly the placement-1 players, and the tie flag is
set exactly for the players at the cap when that count exceeds one.  In the
spec's scenario — one player at 60 raw kills among 12 participants — that
player is rescaled to 0.8×50 = 40, placed 1st, and nobody is flagged tied. -/
theorem ffa_cap_placement_tie_and_scenario :
    (∀ (kc : ℚ) (ps : List FfaPlayer), 1 < ps.length →
        ffa_game_kill_cap kc ps = kc * 0.8)
    ∧ (∀ (kc : ℚ) (ps : List FfaPlayer), ps.length ≤ 1 →
        ffa_game_kill_cap kc ps = kc)
    ∧ (∀ (kc : ℚ) (sh : List FfaPlayer → List FfaPlayer)
        (ps : List FfaPlayer), ∀ p ∈ (ffa_resolve kc sh ps).1,
          (p.team_placement = some 1 ↔ p.kills = (ffa_resolve kc sh ps).2.1))
    ∧ (∀ (kc : ℚ) (sh : List FfaPlayer → List FfaPlayer)
        (ps : List FfaPlayer),
          (ffa_resolve kc sh ps).1.Pairwise fun p q => q.kills ≤ p.kills)
    ∧ (∀ (kc : ℚ) (sh : List FfaPlayer → List FfaPlayer)
        (ps : List FfaPlayer),
          (ffa_resolve kc sh ps).1.Pairwise fun p q =>
            p.kills ≠ (ffa_resolve kc sh ps).2.1 →
            q.kills ≠ (ffa_resolve kc sh ps).2.1 →
              ∃ a b : ℚ, p.team_placement = some a
                ∧ q.team_placement = some b ∧ a < b)
    ∧ (∀ (kc : ℚ) (sh : List FfaPlayer → List FfaPlayer)
        (ps : List FfaPlayer), ∀ p ∈ (ffa_resolve kc sh ps).1,
          (p.is_tie = some true ↔
            (1 < (ffa_resolve kc sh ps).2.2
              ∧ p.kills = (ffa_resolve kc sh ps).2.1)))
    ∧ (∀ (kc : ℚ) (sh : List FfaPlayer → List FfaPlayer)
        (ps : List FfaPlayer),
          ((ffa_resolve kc sh ps).1.countP
              fun p => p.team_placement == some 1)
            = (ffa_resolve kc sh ps).2.2)
    ∧ (ffa_resolve 50 id ffa_scenario_players).2.1 = 40
    ∧ (ffa_resolve 50 id ffa_scenario_players).2.2 = 1
    ∧ ((ffa_resolve 50 id ffa_scenario_players).1.map
          fun p => (p.kills, p.team_placement, p.is_tie)).head?
        = some (40, some 1, some false) := by
  refine ⟨?_, ?_, ?_, ?_, ?_, ?_, ?_, ?_, ?_, ?_⟩
  · intro kc ps h
    rw [ffa_game_kill_cap, if_pos h]
  · intro kc ps h
    rw [ffa_game_kill_cap, if_neg (by omega)]
  · intro kc sh ps p hp
    simp only [ffa_resolve, ffa_assign_ties, List.mem_map] at hp
    obtain ⟨q, hq, rfl⟩ := hp
    simpa using ffa_place_mem (ffa_game_kill_cap kc ps) _ 2 0 (by norm_num)
      q hq
  · intro kc sh ps
    simp only [ffa_resolve, ffa_assign_ties]
    rw [List.pairwise_map]
    have hm := ffa_place_kills_map (ffa_game_kill_cap kc ps)
      (sortByKillsDesc (ffa_redistribute
        (ffa_rescale (ffa_game_kill_cap kc ps / ffa_max_kills ps) ps)
        (sh (ffa_rescale (ffa_game_kill_cap kc ps / ffa_max_kills ps) ps))))
      2 0
    have hs : ((sortByKillsDesc (ffa_redistribute
        (ffa_rescale (ffa_game_kill_cap kc ps / ffa_max_kills ps) ps)
        (sh (ffa_rescale (ffa_game_kill_cap kc ps / ffa_max_kills ps)
          ps)))).map fun p => p.kills).Pairwise fun a b => b ≤ a :=
      List.pairwise_map.2 (sortByKillsDesc_pairwise _)
    rw [← hm] at hs
    exact List.pairwise_map.1 hs
  · intro kc sh ps
    simp only [ffa_resolve, ffa_assign_ties]
    rw [List.pairwise_map]
    exact ffa_place_pairwise_placements (ffa_game_kill_cap kc ps) _ 2 0
  · intro kc sh ps p hp
    simp only [ffa_resolve, ffa_assign_ties, List.mem_map] at hp
    obtain ⟨q, hq, rfl⟩ := hp
    simpa only [ffa_resolve] using option_ite_true_iff _
  · intro kc sh ps
    simp only [ffa_resolve, ffa_assign_ties, List.countP_map]
    have := ffa_place_count (ffa_game_kill_cap kc ps)
      (sortByKillsDesc (ffa_redistribute
        (ffa_rescale (ffa_game_kill_cap kc ps / ffa_max_kills ps) ps)
        (sh (ffa_rescale (ffa_game_kill_cap kc ps / ffa_max_kills ps) ps))))
      2 0 (by norm_num)
    simpa using this
  · norm_num [ffa_resolve, ffa_game_kill_cap, ffa_scenario_players]
  · norm_num [ffa_resolve, ffa_game_kill_cap, ffa_max_kills, ffa_rescale,
      ffa_redistribute, ffa_death_weights, sortByKillsDesc, insertByKillsDesc,
      ffa_place, ffa_assign_ties, ffa_scenario_players, mkFfa, roundInt,
      pythonRound, max_def, List.countP_cons]
  · norm_num [ffa_resolve, ffa_game_kill_cap, ffa_max_kills, ffa_rescale,
      ffa_redistribute, ffa_death_weights, sortByKillsDesc, insertByKillsDesc,
      ffa_place, ffa_assign_ties, ffa_scenario_players, mkFfa, roundInt,
      pythonRound, max_def, List.countP_cons]

/-- **C10 counterexample.** One update with an all-zero game record does not
leave the stored state unchanged apart from the game counter and timestamp:
from a prior of 10 kills over 2 games, `avg_kills` drops from 5 to 10/3 (the
denominator grew), the loss counter increments (placement 0 is not 1 and not a
tie), the 3-game win streak resets, and the rating is overwritten by the
record's after-game rating 0. -/
theorem aggregate_update_changes_more_than_claimed :
    (update_player_stats c10_prior (zeroGamePlayer 1000000)).avg_kills
        ≠ c10_prior.avg_kills
    ∧ (update_player_stats c10_prior (zeroGamePlayer 1000000)).total_loses
        ≠ c10_prior.total_loses
    ∧ (update_player_stats c10_prior (zeroGamePlayer 1000000)).win_streak
        ≠ c10_prior.win_streak
    ∧ (update_player_stats c10_prior (zeroGamePlayer 1000000)).true_rating
        ≠ c10_prior.true_rating := by
  refine ⟨?_, ?_, ?_, ?_⟩ <;>
    norm_num [update_player_stats, zeroGamePlayer, c10_prior]

/-- **C10 (amended).** Running the aggregate update once with an all-zero game
record leaves every running total at its prior value, increments
`total_games_played` by 1 and `total_loses` by 1 (a zero placement is neither
1 nor a tie), resets the win streak, advances `last_time_played` by one week
clamped to `[created_at − one year, created_at]` (a missing value starts one
year back plus the week), overwrites the rating with the record's (zero)
after-game rating, recomputes the ratio fields from the unchanged totals, and
recomputes every average as `prior_total / (prior_games + 1)` — so the stored
averages keep their prior value only when the corresponding totals are zero. -/
theorem aggregate_update_zero_game (ps : PlayerGameTypeStats) (t : ℚ)
    (h1 : 0 ≤ ps.total_games_played) (h2 : 0 ≤ ps.best_killstreak) :
    (update_player_stats ps (zeroGamePlayer t)).total_kills = ps.total_kills
    ∧ (update_player_stats ps (zeroGamePlayer t)).total_deaths
        = ps.total_deaths
    ∧ (update_player_stats ps (zeroGamePlayer t)).total_assists
        = ps.total_assists
    ∧ (update_player_stats ps (zeroGamePlayer t)).total_damage_missed
        = ps.total_damage_missed
    ∧ (update_player_stats ps (zeroGamePlayer t)).total_damage_taken
        = ps.total_damage_taken
    ∧ (update_player_stats ps (zeroGamePlayer t)).total_damage_dealt
        = ps.total_damage_dealt
    ∧ (update_player_stats ps (zeroGamePlayer t)).total_headshot_damage_dealt
        = ps.total_headshot_damage_dealt
    ∧ (update_player_stats ps (zeroGamePlayer t)).total_torso_damage_dealt
        = ps.total_torso_damage_dealt
    ∧ (update_player_stats ps (zeroGamePlayer t)).total_leg_damage_dealt
        = ps.total_leg_damage_dealt
    ∧ (update_player_stats ps (zeroGamePlayer t)).total_contesting_kills
        = ps.total_contesting_kills
    ∧ (update_player_stats ps (zeroGamePlayer t)).total_objective_time
        = ps.total_objective_time
    ∧ (update_player_stats ps (zeroGamePlayer t)).total_longest_time_alive
        = ps.total_longest_time_alive
    ∧ (update_player_stats ps (zeroGamePlayer t)).total_kills_per_minute
        = ps.total_kills_per_minute
    ∧ (update_player_stats ps (zeroGamePlayer t)).total_deaths_per_minute
        = ps.total_deaths_per_minute
    ∧ (update_player_stats ps (zeroGamePlayer t)).total_assists_per_minute
        = ps.total_assists_per_minute
    ∧ (update_player_stats ps
        (zeroGamePlayer t)).total_damage_dealt_per_minute
        = ps.total_damage_dealt_per_minute
    ∧ (update_player_stats ps
        (zeroGamePlayer t)).total_damage_taken_per_minute
        = ps.total_damage_taken_per_minute
    ∧ (update_player_stats ps (zeroGamePlayer t)).total_accuracy
        = ps.total_accuracy
    ∧ (update_player_stats ps (zeroGamePlayer t)).total_headshot_accuracy
        = ps.total_headshot_accuracy
    ∧ (update_player_stats ps (zeroGamePlayer t)).total_torso_accuracy
        = ps.total_torso_accuracy
    ∧ (update_player_stats ps (zeroGamePlayer t)).total_leg_accuracy
        = ps.total_leg_accuracy
    ∧ (update_player_stats ps (zeroGamePlayer t)).total_games_played
        = ps.total_games_played + 1
    ∧ (update_player_stats ps (zeroGamePlayer t)).total_wins = ps.total_wins
    ∧ (update_player_stats ps (zeroGamePlayer t)).total_loses
        = ps.total_loses + 1
    ∧ (update_player_stats ps (zeroGamePlayer t)).total_ties = ps.total_ties
    ∧ (update_player_stats ps (zeroGamePlayer t)).win_streak = 0
    ∧ (update_player_stats ps (zeroGamePlayer t)).true_rating = 0
    ∧ (update_player_stats ps (zeroGamePlayer t)).best_killstreak
        = ps.best_killstreak
    ∧ (∀ lt : ℚ, ps.last_time_played = some lt →
        (update_player_stats ps (zeroGamePlayer t)).last_time_played
          = some (min t (max (t - ONE_YEAR) (lt + ONE_WEEK))))
    ∧ (ps.last_time_played = none →
        (update_player_stats ps (zeroGamePlayer t)).last_time_played
          = some (t - ONE_YEAR + ONE_WEEK))
    ∧ (update_player_stats ps (zeroGamePlayer t)).total_kill_death_ratio
        = (if ps.total_deaths > 0 then ps.total_kills / ps.total_deaths
          else ps.total_kills)
    ∧ (update_player_stats ps
        (zeroGamePlayer t)).total_damage_dealt_and_taken_ratio
        = (if ps.total_damage_taken > 0 then
            ps.total_damage_dealt / ps.total_damage_taken
          else ps.total_damage_dealt)
    ∧ (update_player_stats ps (zeroGamePlayer t)).win_loss_ratio
        = (if ps.total_loses + 1 > 0 then ps.total_wins / (ps.total_loses + 1)
          else ps.total_wins)
    ∧ (update_player_stats ps (zeroGamePlayer t)).avg_kills
        = ps.total_kills / (ps.total_games_played + 1)
    ∧ (update_player_stats ps (zeroGamePlayer t)).avg_deaths
        = ps.total_deaths / (ps.total_games_played + 1)
    ∧ (update_player_stats ps (zeroGamePlayer t)).avg_assists
        = ps.total_assists / (ps.total_games_played + 1)
    ∧ (update_player_stats ps (zeroGamePlayer t)).avg_damage_dealt
        = ps.total_damage_dealt / (ps.total_games_played + 1)
    ∧ (update_player_stats ps (zeroGamePlayer t)).avg_damage_taken
        = ps.total_damage_taken / (ps.total_games_played + 1)
    ∧ (update_player_stats ps (zeroGamePlayer t)).avg_damage_missed
        = ps.total_damage_missed / (ps.total_games_played + 1)
    ∧ (update_player_stats ps (zeroGamePlayer t)).avg_headshot_damage_dealt
        = ps.total_headshot_damage_dealt / (ps.total_games_played + 1)
    ∧ (update_player_stats ps (zeroGamePlayer t)).avg_torso_damage_dealt
        = ps.total_torso_damage_dealt / (ps.total_games_played + 1)
    ∧ (update_player_stats ps (zeroGamePlayer t)).avg_leg_damage_dealt
        = ps.total_leg_damage_dealt / (ps.total_games_played + 1)
    ∧ (update_player_stats ps (zeroGamePlayer t)).avg_accuracy
        = ps.total_accuracy / (ps.total_games_played + 1)
    ∧ (update_player_stats ps (zeroGamePlayer t)).avg_headshot_accuracy
        = ps.total_headshot_accuracy / (ps.total_games_played + 1)
    ∧ (update_player_stats ps (zeroGamePlayer t)).avg_torso_accuracy
        = ps.total_torso_accuracy / (ps.total_games_played + 1)
    ∧ (update_player_stats ps (zeroGamePlayer t)).avg_leg_accuracy
        = ps.total_leg_accuracy / (ps.total_games_played + 1)
    ∧ (update_player_stats ps (zeroGamePlayer t)).avg_contesting_kills
        = ps.total_contesting_kills / (ps.total_games_played + 1)
    ∧ (update_player_stats ps (zeroGamePlayer t)).avg_objective_time
        = ps.total_objective_time / (ps.total_games_played + 1)
    ∧ (update_player_stats ps (zeroGamePlayer t)).avg_longest_time_alive
        = ps.total_longest_time_alive / (ps.total_games_played + 1)
    ∧ (update_player_stats ps (zeroGamePlayer t)).avg_kills_per_minute
        = ps.total_kills_per_minute / (ps.total_games_played + 1)
    ∧ (update_player_stats ps (zeroGamePlayer t)).avg_deaths_per_minute
        = ps.total_deaths_per_minute / (ps.total_games_played + 1)
    ∧ (update_player_stats ps (zeroGamePlayer t)).avg_assists_per_minute
        = ps.total_assists_per_minute / (ps.total_games_played + 1)
    ∧ (update_player_stats ps (zeroGamePlayer t)).avg_damage_dealt_per_minute
        = ps.total_damage_dealt_per_minute / (ps.total_games_played + 1)
    ∧ (update_player_stats ps (zeroGamePlayer t)).avg_damage_taken_per_minute
        = ps.total_damage_taken_per_minute / (ps.total_games_played + 1) := by
  have hpos : ps.total_games_played + 1 > 0 := by linarith
  simp only [update_player_stats, zeroGamePlayer]
  norm_num [hpos, max_eq_left h2]
  constructor
  · intro lt hlt
    rw [hlt]
  · intro hnone
    rw [hnone]

/-- Witness for the amended aggregate-update theorem at the concrete prior. -/
theorem aggregate_update_zero_game_witness :
    (update_player_stats c10_prior (zeroGamePlayer 1000000)).total_kills
      = c10_prior.total_kills :=
  (aggregate_update_zero_game c10_prior 1000000
    (by norm_num [c10_prior]) (by norm_num [c10_prior])).1

end MMAlgos
